import Mathlib

/-!
Verification of the payment settlement workflow and transaction journal of the
banking microservices repository.

The embedding follows the Python sources:

* `src/payment_api/function_app.py` — settlement orchestration
  (`get_account_by_id`, `get_payment_method_by_id`, `get_beneficiary_by_id`,
  `update_account_balance`, `create_transaction_via_api`, `process_payment`);
* `src/functions_apis/transaction_api/function_app.py` — transaction journal
  (`get_transactions_by_account_id`, `search_transactions_by_recipient`,
  `create_transaction`);
* `src/aca_apis/transaction-api/services.py` and `repositories.py` — the
  container-apps variant of the journal service with its input validation.

Modelling conventions:

* The Cosmos document store is a `Store` record of four document lists; a
  container query (`query_items`) is a `filter`/sort over the matching list and
  `upsert_item` is keyed replacement (insert when the key is absent), exactly
  as the emulated SQL predicates read.
* Monetary amounts (`float` in the source) are exact fixed-point integers
  (e.g. cents); the spec's data-model note itself requires a fixed-point type
  for a faithful treatment, and every claim is about exact arithmetic.
* ISO-8601 timestamp strings are modelled by naturals carrying the same total
  order; `datetime.utcnow()` inside one request is a single `now : Nat`
  parameter of the call.
* The one remote call (`create_transaction_via_api`, a POST to the Transaction
  API) can fail at the network; its outcome is an explicit `appendOk : Bool`
  parameter.  `requests.post` + `raise_for_status` raising is the
  `appendOk = false` branch.
* Python exceptions are `Except String`; a raised exception leaves every store
  write already performed in place, so the fallible operations return the
  post-call `Store` alongside the result.
-/

/-- Summary of a payment method as denormalized inside an account document. -/
structure PaymentMethodSummary where
  id : String
  type : String
  activationDate : String
  expirationDate : String
deriving DecidableEq

/-- An account document (container `accounts`, fields as in
`functions_apis/account_api/models.py`); `balance` in fixed-point units. -/
structure Account where
  id : String
  userName : String
  accountHolderFullName : String
  currency : String
  activationDate : String
  balance : Int
  paymentMethods : List PaymentMethodSummary
deriving DecidableEq

/-- A payment-method document (container `payment-methods`). -/
structure PaymentMethod where
  id : String
  accountId : String
  type : String
  activationDate : String
  expirationDate : String
  availableBalance : Int
  cardNumber : String
deriving DecidableEq

/-- A beneficiary document (container `beneficiaries`).  The settlement code
reads the keys `name` and `bankReference` of the stored document, so those are
the modelled field names. -/
structure Beneficiary where
  id : String
  accountId : String
  name : String
  bankReference : String
  bankName : String
deriving DecidableEq

/-- A transaction journal document (container `transactions`, partition key
`accountId`), fields as in `transaction_api/models.py`; `amount` is signed
fixed-point, `timestamp` a natural in ISO-8601 order. -/
structure Transaction where
  id : String
  description : String
  type : String
  recipientName : String
  recipientBankReference : String
  accountId : String
  paymentType : String
  amount : Int
  timestamp : Nat
deriving DecidableEq

/-- The body of `POST /payments` (`PaymentRequest` in
`functions_apis/payment_api/models.py`). -/
structure PaymentRequest where
  accountId : String
  paymentMethodId : String
  beneficiaryId : String
  amount : Int
  description : String
deriving DecidableEq

/-- The whole document store: one list per container. -/
structure Store where
  accounts : List Account
  paymentMethods : List PaymentMethod
  beneficiaries : List Beneficiary
  transactions : List Transaction
deriving DecidableEq

/-- `get_account_by_id`: cross-partition query `SELECT * FROM c WHERE c.id =
@accountId`, returning `items[0] if items else None`. -/
def get_account_by_id (s : Store) (account_id : String) : Option Account :=
  (s.accounts.filter (fun a => a.id == account_id)).head?

/-- `get_payment_method_by_id`: in-partition query on `id` and `accountId`. -/
def get_payment_method_by_id (s : Store) (payment_method_id account_id : String) :
    Option PaymentMethod :=
  (s.paymentMethods.filter
    (fun p => p.id == payment_method_id && p.accountId == account_id)).head?

/-- `get_beneficiary_by_id`: in-partition query on `id` and `accountId`. -/
def get_beneficiary_by_id (s : Store) (beneficiary_id account_id : String) :
    Option Beneficiary :=
  (s.beneficiaries.filter
    (fun b => b.id == beneficiary_id && b.accountId == account_id)).head?

/-- Cosmos `upsert_item` on the `accounts` container: replace the document
with the same `id`, or insert when absent. -/
def upsert_account (accounts : List Account) (a : Account) : List Account :=
  if accounts.any (fun b => b.id == a.id) then
    accounts.map (fun b => if b.id == a.id then a else b)
  else accounts ++ [a]

/-- `update_account_balance`: re-read the account, overwrite only its
`balance` field with `new_balance`, and upsert the whole document.  There is
no version/etag condition and no retry. -/
def update_account_balance (s : Store) (account_id : String) (new_balance : Int) :
    Except String Store :=
  match get_account_by_id s account_id with
  | none => .error ("Account " ++ account_id ++ " not found")
  | some account =>
      .ok { s with accounts := upsert_account s.accounts { account with balance := new_balance } }

/-- The upsert key of the `transactions` container: document `id` within the
`accountId` partition. -/
def txn_key_matches (t u : Transaction) : Bool :=
  u.id == t.id && u.accountId == t.accountId

/-- Cosmos `upsert_item` on the `transactions` container. -/
def upsert_transaction (ts : List Transaction) (t : Transaction) : List Transaction :=
  if ts.any (txn_key_matches t) then
    ts.map (fun u => if txn_key_matches t u then t else u)
  else ts ++ [t]

/-- `create_transaction` of the Transaction API: force `accountId` to the
path parameter, then upsert.  (The body built by the Payment API always
carries a timestamp, so the `timestamp`-defaulting branch is not taken.) -/
def create_transaction (s : Store) (account_id : String) (t : Transaction) :
    Store × Transaction :=
  let t' := { t with accountId := account_id }
  ({ s with transactions := upsert_transaction s.transactions t' }, t')

/-- The journal-entry id minted by `process_payment`:
`f"txn-{datetime.utcnow().timestamp()}"` — a pure function of the clock. -/
def mk_txn_id (now : Nat) : String := "txn-" ++ toString now

/-- The `transaction_data` dict built in step 6 of `process_payment`.  Note
that `amount` is `payment_request.amount`, not its negation. -/
def settlement_transaction (req : PaymentRequest) (pm : PaymentMethod)
    (ben : Beneficiary) (now : Nat) : Transaction :=
  { id := mk_txn_id now
  , description := if req.description == "" then "Payment to " ++ ben.name else req.description
  , type := "debit"
  , recipientName := ben.name
  , recipientBankReference := ben.bankReference
  , accountId := req.accountId
  , paymentType := pm.type
  , amount := req.amount
  , timestamp := now }

/-- The success payload of `process_payment`. -/
structure PaymentResult where
  message : String
  transaction : Transaction
  newBalance : Int
deriving DecidableEq

/-- `process_payment`: resolve account, payment method and beneficiary,
check funds, debit via `update_account_balance`, then append the journal
entry through the Transaction API (`appendOk` is that network call's fate).
A raised exception is `.error` and the store component is whatever state the
writes so far produced. -/
def process_payment (s : Store) (req : PaymentRequest) (now : Nat) (appendOk : Bool) :
    Except String PaymentResult × Store :=
  match get_account_by_id s req.accountId with
  | none => (.error ("Account " ++ req.accountId ++ " not found"), s)
  | some account =>
    match get_payment_method_by_id s req.paymentMethodId req.accountId with
    | none => (.error ("Payment method " ++ req.paymentMethodId ++ " not found"), s)
    | some pm =>
      match get_beneficiary_by_id s req.beneficiaryId req.accountId with
      | none => (.error ("Beneficiary " ++ req.beneficiaryId ++ " not found"), s)
      | some ben =>
        if account.balance < req.amount then
          (.error "Insufficient balance", s)
        else
          let new_balance := account.balance - req.amount
          match update_account_balance s req.accountId new_balance with
          | .error e => (.error e, s)
          | .ok s1 =>
            if appendOk then
              let r := create_transaction s1 req.accountId (settlement_transaction req pm ben now)
              (.ok { message := "Payment processed successfully"
                   , transaction := r.2
                   , newBalance := new_balance }, r.1)
            else
              (.error "Transaction API call failed", s1)

/-- Whether an `Except` result is a success. -/
def is_success {ε α : Type} : Except ε α → Bool
  | .ok _ => true
  | .error _ => false


/-! ### Transaction journal queries (functions API and ACA variant) -/

/-- The `ORDER BY c.timestamp DESC` relation of the journal queries. -/
def ts_desc (t u : Transaction) : Prop := u.timestamp ≤ t.timestamp

instance : DecidableRel ts_desc := fun t u => Nat.decLe u.timestamp t.timestamp

instance : IsTotal Transaction ts_desc := ⟨fun t u => Nat.le_total u.timestamp t.timestamp⟩

instance : IsTrans Transaction ts_desc := ⟨fun _ _ _ h1 h2 => Nat.le_trans h2 h1⟩

/-- The partition query `SELECT * FROM c WHERE c.accountId = @accountId ORDER
BY c.timestamp DESC` (the store’s sort, modelled by a sort along `ts_desc`). -/
def query_transactions_desc (journal : List Transaction) (account_id : String) :
    List Transaction :=
  List.insertionSort ts_desc (journal.filter (fun t => t.accountId == account_id))

/-- `get_transactions_by_account_id` of the functions API: the partition query
above with `OFFSET 0 LIMIT @limit`. -/
def get_transactions_by_account_id (s : Store) (account_id : String) (limit : Nat) :
    List Transaction :=
  (query_transactions_desc s.transactions account_id).take limit

/-- The HTTP endpoint `GET /transactions/{account_id}`: the optional `limit`
query parameter defaults to 10. -/
def get_last_transactions (s : Store) (account_id : String) (limit? : Option Nat) :
    List Transaction :=
  get_transactions_by_account_id s account_id (limit?.getD 10)

/-- `LOWER(·)` over the characters of a string. -/
def lower_str (s : String) : List Char := s.toList.map Char.toLower

/-- Does the second character sequence start the first argument’s role: is
`needle` an initial segment of `hay`? -/
def seq_starts_with : List Char → List Char → Bool
  | [], _ => true
  | _ :: _, [] => false
  | c :: cs, d :: ds => c == d && seq_starts_with cs ds

/-- Substring containment over character sequences (the semantics of Cosmos
`CONTAINS`). -/
def seq_contains : List Char → List Char → Bool
  | [], needle => needle.isEmpty
  | c :: t, needle => seq_starts_with needle (c :: t) || seq_contains t needle

/-- `CONTAINS(LOWER(c.recipientName), LOWER(@recipientName))`. -/
def recipient_matches (recipientName term : String) : Bool :=
  seq_contains (lower_str recipientName) (lower_str term)

/-- `search_transactions_by_recipient`: partition query with the
case-insensitive containment filter, ordered by timestamp descending. -/
def search_transactions_by_recipient (s : Store) (account_id recipient_name : String) :
    List Transaction :=
  List.insertionSort ts_desc
    (s.transactions.filter
      (fun t => t.accountId == account_id && recipient_matches t.recipientName recipient_name))

/-- Python `str.isdigit()` (ASCII digits): nonempty and all digits. -/
def py_isdigit (s : String) : Bool := !s.isEmpty && s.toList.all Char.isDigit

/-- ACA `TransactionRepository.get_by_account_id`: the descending partition
query without a SQL limit, truncated Python-side when a limit is given. -/
def aca_get_by_account_id (s : Store) (account_id : String) (limit : Option Nat) :
    List Transaction :=
  let transactions := query_transactions_desc s.transactions account_id
  match limit with
  | some l => if transactions.length > l then transactions.take l else transactions
  | none => transactions

/-- ACA `TransactionService.get_last_transactions`, paired with the number of
store (repository) calls the invocation performs: the accountId validations
run before the single repository call, whose limit is the service’s
`last_transactions_limit = 10`. -/
def aca_get_last_transactions (s : Store) (account_id : String) :
    Except String (List Transaction) × Nat :=
  if account_id == "" then (.error "AccountId is empty or null", 0)
  else if !py_isdigit account_id then (.error "AccountId is not a valid number", 0)
  else (.ok (aca_get_by_account_id s account_id (some 10)), 1)

/-- ACA `TransactionService.get_transactions_by_recipient_name`, paired with
its store-call count. -/
def aca_get_transactions_by_recipient_name (s : Store)
    (account_id recipient_name : String) : Except String (List Transaction) × Nat :=
  if account_id == "" then (.error "AccountId is empty or null", 0)
  else if !py_isdigit account_id then (.error "AccountId is not a valid number", 0)
  else if recipient_name == "" then (.error "RecipientName is empty or null", 0)
  else (.ok (search_transactions_by_recipient s account_id recipient_name), 1)

/-- The functions-API handler of `GET /transactions/{account_id}`, paired with
its store-call count: it performs no accountId validation at all and always
queries the store. -/
def functions_get_last_transactions (s : Store) (account_id : String) (limit : Nat) :
    Except String (List Transaction) × Nat :=
  (.ok (get_transactions_by_account_id s account_id limit), 1)

/-- The functions-API search handler, paired with its store-call count: the
only validation is the required `recipientName` query parameter. -/
def functions_search_by_recipient (s : Store) (account_id recipient_name : String) :
    Except String (List Transaction) × Nat :=
  if recipient_name == "" then (.error "recipientName query parameter is required", 0)
  else (.ok (search_transactions_by_recipient s account_id recipient_name), 1)

/-! ### The two phases of a settlement, for reasoning about interleavings -/

/-- Steps 1–5 of `process_payment` — the read-and-check phase: resolve the
three records and compute the new balance; no write happens. -/
def settle_read_phase (s : Store) (req : PaymentRequest) : Option Int :=
  match get_account_by_id s req.accountId,
        get_payment_method_by_id s req.paymentMethodId req.accountId,
        get_beneficiary_by_id s req.beneficiaryId req.accountId with
  | some account, some _, some _ =>
      if account.balance < req.amount then none
      else some (account.balance - req.amount)
  | _, _, _ => none

/-- `n` back-to-back sequential settlements of the same request: the
conjunction of all the success flags, and the resulting store. -/
def settle_seq_ok (req : PaymentRequest) (now : Nat) : Nat → Store → Bool × Store
  | 0, s => (true, s)
  | n + 1, s =>
    let r := process_payment s req now true
    let rest := settle_seq_ok req now n r.2
    (is_success r.1 && rest.1, rest.2)

/-! ### Concrete stores used by the worked examples -/

/-- A worked-example store: account `1010` with balance `1000000` (that is,
10000.00 in cents), instrument `345678`, beneficiary `3`, and one pre-existing
journal entry. -/
def exAccount : Account :=
  { id := "1010", userName := "bob", accountHolderFullName := "Bob Person"
  , currency := "USD", activationDate := "2022-01-01", balance := 1000000
  , paymentMethods := [{ id := "345678", type := "BankTransfer"
                       , activationDate := "2022-01-01", expirationDate := "2026-01-01" }] }

def exPaymentMethod : PaymentMethod :=
  { id := "345678", accountId := "1010", type := "BankTransfer"
  , activationDate := "2022-01-01", expirationDate := "2026-01-01"
  , availableBalance := 500000, cardNumber := "1234567812345678" }

def exBeneficiary : Beneficiary :=
  { id := "3", accountId := "1010", name := "Sarah TheAccountant"
  , bankReference := "555123456", bankName := "Deutsche Bank" }

def exOldTxn : Transaction :=
  { id := "11", description := "Payment of the bill 334398", type := "outcome"
  , recipientName := "acme", recipientBankReference := "098734213"
  , accountId := "1010", paymentType := "BankTransfer"
  , amount := -12000, timestamp := 100 }

def exStore : Store :=
  { accounts := [exAccount]
  , paymentMethods := [exPaymentMethod]
  , beneficiaries := [exBeneficiary]
  , transactions := [exOldTxn] }

/-- A settlement request of 120.50 against the worked-example store. -/
def exRequest : PaymentRequest :=
  { accountId := "1010", paymentMethodId := "345678", beneficiaryId := "3"
  , amount := 12050, description := "Payment for consulting services" }

/-- The two requests of the C6 counterexample: distinct settlements (different
amounts and descriptions) against the worked-example account. -/
def c6ReqA : PaymentRequest := { exRequest with amount := 1000, description := "first" }

def c6ReqB : PaymentRequest := { exRequest with amount := 2000, description := "second" }

/-- The C3 interleaving scenario: the same account with balance `10`, and a
request of amount `5` (so two settlements should drain the balance). -/
def c3Store : Store := { exStore with accounts := [{ exAccount with balance := 10 }] }

def c3Req : PaymentRequest := { exRequest with amount := 5 }

/-- The store both interleaved writers produce: balance `5`. -/
def c3S1 : Store := { c3Store with accounts := [{ exAccount with balance := 5 }] }

/-- A 15-entry journal for account `1010` with pairwise distinct timestamps. -/
def wTxn (i : Nat) : Transaction := { exOldTxn with id := toString i, timestamp := i }

def wStore : Store := { exStore with transactions := (List.range 15).map wTxn }

/-! ### Theorems -/

/-! ### Shared helper lemmas -/

/-- Reading an account back from a point query pins down membership and id. -/
theorem get_account_by_id_spec {s : Store} {aid : String} {a : Account}
    (h : get_account_by_id s aid = some a) : a ∈ s.accounts ∧ a.id = aid := by
  unfold get_account_by_id at h
  have hm : a ∈ s.accounts.filter (fun b => b.id == aid) :=
    List.mem_of_mem_head? (by simp [h])
  rcases List.mem_filter.mp hm with ⟨hmem, hp⟩
  exact ⟨hmem, by simpa using hp⟩

/-- A point query that answers `some a` pins down membership and id
(list-level form). -/
theorem head?_filter_spec {l : List Account} {aid : String} {a : Account}
    (h : (l.filter (fun b => b.id == aid)).head? = some a) : a ∈ l ∧ a.id = aid := by
  have hm : a ∈ l.filter (fun b => b.id == aid) := List.mem_of_mem_head? (by simp [h])
  rcases List.mem_filter.mp hm with ⟨hmem, hp⟩
  exact ⟨hmem, by simpa using hp⟩

/-- Replacing every id-match of `a` by `a'` (the map branch of an upsert)
makes the point query answer `a'`. -/
theorem head?_filter_map_replace (aid : String) (a a' : Account) (hid : a'.id = a.id) :
    ∀ l : List Account, (l.filter (fun b => b.id == aid)).head? = some a →
      ((l.map (fun b => if b.id == a'.id then a' else b)).filter
        (fun b => b.id == aid)).head? = some a' := by
  intro l
  induction l with
  | nil => intro h; simp at h
  | cons c t ih =>
    intro h
    have haid : a.id = aid := (head?_filter_spec h).2
    by_cases hc : c.id = aid
    · have hac : a = c := by
        simp [List.filter_cons, hc] at h
        exact h.symm
      subst hac
      simp [List.filter_cons, List.map_cons, hid, haid]
    · have hfil : (t.filter (fun b => b.id == aid)).head? = some a := by
        simpa [List.filter_cons, hc] using h
      have hcne : ¬ c.id = a'.id := by
        rw [hid, haid]; exact hc
      simpa [List.filter_cons, List.map_cons, hc, hcne] using ih hfil

/-- After `upsert_account` of a record `a'` carrying the id of the account
`a` that the query currently returns, the query returns `a'`. -/
theorem get_account_after_upsert {s : Store} {aid : String} {a : Account} (a' : Account)
    (h : get_account_by_id s aid = some a) (hid : a'.id = a.id) :
    ((upsert_account s.accounts a').filter (fun b => b.id == aid)).head? = some a' := by
  have hmem := (get_account_by_id_spec h).1
  have hany : s.accounts.any (fun b => b.id == a'.id) = true :=
    List.any_eq_true.mpr ⟨a, hmem, by simp [hid, (get_account_by_id_spec h).2]⟩
  unfold upsert_account
  rw [if_pos hany]
  exact head?_filter_map_replace aid a a' hid s.accounts h

/-- The whole success path of `process_payment` in one equation: with all
three lookups resolving and sufficient funds, the call debits the account by
an upsert, appends the settlement entry, and reports the new balance. -/
theorem process_payment_success (s : Store) (req : PaymentRequest) (now : Nat)
    (a : Account) (pm : PaymentMethod) (ben : Beneficiary)
    (ha : get_account_by_id s req.accountId = some a)
    (hpm : get_payment_method_by_id s req.paymentMethodId req.accountId = some pm)
    (hben : get_beneficiary_by_id s req.beneficiaryId req.accountId = some ben)
    (hbal : ¬ a.balance < req.amount) :
    process_payment s req now true =
      (.ok { message := "Payment processed successfully"
           , transaction := settlement_transaction req pm ben now
           , newBalance := a.balance - req.amount },
       { s with
           accounts := upsert_account s.accounts { a with balance := a.balance - req.amount }
         , transactions :=
             upsert_transaction s.transactions (settlement_transaction req pm ben now) }) := by
  unfold process_payment
  rw [ha, hpm, hben]
  simp only [if_neg hbal]
  unfold update_account_balance
  rw [ha]
  rfl

/-- The append-failure path of `process_payment` in one equation: the debit
upsert stays, no journal write happens, and the exception propagates. -/
theorem process_payment_append_failure (s : Store) (req : PaymentRequest) (now : Nat)
    (a : Account) (pm : PaymentMethod) (ben : Beneficiary)
    (ha : get_account_by_id s req.accountId = some a)
    (hpm : get_payment_method_by_id s req.paymentMethodId req.accountId = some pm)
    (hben : get_beneficiary_by_id s req.beneficiaryId req.accountId = some ben)
    (hbal : ¬ a.balance < req.amount) :
    process_payment s req now false =
      (.error "Transaction API call failed",
       { s with
           accounts := upsert_account s.accounts { a with balance := a.balance - req.amount } }) := by
  unfold process_payment
  rw [ha, hpm, hben]
  simp only [if_neg hbal]
  unfold update_account_balance
  rw [ha]
  rfl

/-! ### C2 — insufficient funds is a no-op -/

/-- Claim C2: when the account, payment method and beneficiary all resolve and
the requested amount exceeds the account balance, `process_payment` raises the
insufficient-balance error and returns the store exactly as it was: no account
write and no journal write happen. -/
theorem c2_insufficient_funds_no_op (s : Store) (req : PaymentRequest) (now : Nat)
    (appendOk : Bool) (a : Account) (pm : PaymentMethod) (ben : Beneficiary)
    (ha : get_account_by_id s req.accountId = some a)
    (hpm : get_payment_method_by_id s req.paymentMethodId req.accountId = some pm)
    (hben : get_beneficiary_by_id s req.beneficiaryId req.accountId = some ben)
    (hlt : a.balance < req.amount) :
    process_payment s req now appendOk = (.error "Insufficient balance", s) := by
  unfold process_payment
  rw [ha, hpm, hben]
  simp only [if_pos hlt]

/-- Witness for C2 at the worked example: requesting 20000.00 from a balance
of 10000.00 fails and leaves the store untouched. -/
theorem c2_insufficient_funds_no_op_witness :
    process_payment exStore { exRequest with amount := 2000000 } 1700000000 true =
      (.error "Insufficient balance", exStore) :=
  c2_insufficient_funds_no_op exStore { exRequest with amount := 2000000 } 1700000000 true
    exAccount exPaymentMethod exBeneficiary (by decide) (by decide) (by decide) (by decide)

/-! ### C4 — post-debit journal failure -/

/-- Counterexample to claim C4: at the worked example, when the journal append
fails after the debit, `process_payment` raises a generic exception (the HTTP
layer turns it into a 500) — it does not return any success-with-warning
(`SettledUnconfirmed`) result — even though the debit has indeed committed and
is not reversed. -/
theorem c4_counterexample :
    is_success (process_payment exStore exRequest 1700000000 false).1 = false ∧
    (process_payment exStore exRequest 1700000000 false).1 =
      .error "Transaction API call failed" ∧
    get_account_by_id (process_payment exStore exRequest 1700000000 false).2 "1010" =
      some { exAccount with balance := 987950 } ∧
    (process_payment exStore exRequest 1700000000 false).2.transactions =
      exStore.transactions := by
  refine ⟨rfl, rfl, ?_, rfl⟩
  rfl

/-- Claim C4 as amended: if the journal append fails after the balance debit
committed, `process_payment` leaves the debit in place (the stored balance
stays decreased, no compensating credit) and appends nothing to the journal,
but it propagates the failure to the caller as a generic error rather than
returning a success-with-warning (`SettledUnconfirmed`) result. -/
theorem c4_debit_kept_generic_error (s : Store) (req : PaymentRequest) (now : Nat)
    (a : Account) (pm : PaymentMethod) (ben : Beneficiary)
    (ha : get_account_by_id s req.accountId = some a)
    (hpm : get_payment_method_by_id s req.paymentMethodId req.accountId = some pm)
    (hben : get_beneficiary_by_id s req.beneficiaryId req.accountId = some ben)
    (hbal : ¬ a.balance < req.amount) :
    is_success (process_payment s req now false).1 = false ∧
    get_account_by_id (process_payment s req now false).2 req.accountId =
      some { a with balance := a.balance - req.amount } ∧
    (process_payment s req now false).2.transactions = s.transactions := by
  have heq := process_payment_append_failure s req now a pm ben ha hpm hben hbal
  rw [heq]
  refine ⟨rfl, ?_, rfl⟩
  show ((upsert_account s.accounts _).filter _).head? = _
  exact get_account_after_upsert _ ha rfl

/-- Witness for the amended C4 at the worked example. -/
theorem c4_debit_kept_generic_error_witness :
    is_success (process_payment exStore exRequest 1700000000 false).1 = false ∧
    get_account_by_id (process_payment exStore exRequest 1700000000 false).2
      exRequest.accountId = some { exAccount with balance := exAccount.balance - exRequest.amount } ∧
    (process_payment exStore exRequest 1700000000 false).2.transactions =
      exStore.transactions :=
  c4_debit_kept_generic_error exStore exRequest 1700000000
    exAccount exPaymentMethod exBeneficiary (by decide) (by decide) (by decide) (by decide)

/-! ### C1 — what a successful settlement writes -/

/-- Claim C1, evaluated at the concrete failing input (the scenario of the
spec: account `1010`, balance 10000.00, instrument `345678`, beneficiary `3`,
amount 120.50, all in cents): the settlement succeeds, debits the stored
balance by exactly the request amount, appends exactly one journal entry with
direction `debit` — but that entry's `amount` field equals the request amount
itself, not its negation as the claim (and the `Transaction` model's sign
convention, negative for debits) requires. -/
theorem c1_entry_amount_not_negated :
    (process_payment exStore exRequest 1700000000 true).1 =
      .ok { message := "Payment processed successfully"
          , transaction := settlement_transaction exRequest exPaymentMethod exBeneficiary 1700000000
          , newBalance := 987950 } ∧
    (process_payment exStore exRequest 1700000000 true).2.transactions =
      exStore.transactions ++
        [settlement_transaction exRequest exPaymentMethod exBeneficiary 1700000000] ∧
    get_account_by_id (process_payment exStore exRequest 1700000000 true).2 "1010" =
      some { exAccount with balance := exAccount.balance - exRequest.amount } ∧
    (settlement_transaction exRequest exPaymentMethod exBeneficiary 1700000000).type = "debit" ∧
    (settlement_transaction exRequest exPaymentMethod exBeneficiary 1700000000).amount =
      exRequest.amount ∧
    (settlement_transaction exRequest exPaymentMethod exBeneficiary 1700000000).amount ≠
      -exRequest.amount := by
  refine ⟨rfl, ?_, rfl, rfl, rfl, by decide⟩
  rfl

/-! ### C5 — journal append is an idempotent upsert -/

/-- Every document matches its own upsert key. -/
theorem txn_key_self (t : Transaction) : txn_key_matches t t = true := by
  simp [txn_key_matches]

/-- The replacing branch of `upsert_transaction`. -/
theorem upsert_transaction_of_any (ts : List Transaction) (t : Transaction)
    (h : ts.any (txn_key_matches t) = true) :
    upsert_transaction ts t = ts.map (fun u => if txn_key_matches t u then t else u) := by
  unfold upsert_transaction; rw [if_pos h]

/-- The inserting branch of `upsert_transaction`. -/
theorem upsert_transaction_of_not_any (ts : List Transaction) (t : Transaction)
    (h : ¬ ts.any (txn_key_matches t) = true) :
    upsert_transaction ts t = ts ++ [t] := by
  unfold upsert_transaction; rw [if_neg h]

/-- After an upsert, every key-matching entry is the upserted document. -/
theorem upsert_transaction_matches (ts : List Transaction) (t u : Transaction)
    (hu : u ∈ upsert_transaction ts t) (hk : txn_key_matches t u = true) : u = t := by
  unfold upsert_transaction at hu
  by_cases h : ts.any (txn_key_matches t) = true
  · rw [if_pos h] at hu
    rcases List.mem_map.mp hu with ⟨v, hv, hvu⟩
    by_cases hkv : txn_key_matches t v = true
    · rw [if_pos hkv] at hvu; exact hvu.symm
    · rw [if_neg hkv] at hvu; subst hvu; exact absurd hk hkv
  · rw [if_neg h] at hu
    rcases List.mem_append.mp hu with hL | hR
    · exact absurd (List.any_eq_true.mpr ⟨u, hL, hk⟩) h
    · simpa using hR

/-- The upserted document is present afterwards. -/
theorem upsert_transaction_mem_self (ts : List Transaction) (t : Transaction) :
    t ∈ upsert_transaction ts t := by
  unfold upsert_transaction
  by_cases h : ts.any (txn_key_matches t) = true
  · rw [if_pos h]
    rcases List.any_eq_true.mp h with ⟨v, hv, hkv⟩
    exact List.mem_map.mpr ⟨v, hv, by rw [if_pos hkv]⟩
  · rw [if_neg h]; simp

/-- Replacing key-matches by `t` in a list whose key-matches already all equal
`t` changes nothing. -/
theorem map_replace_id (ts : List Transaction) (t : Transaction)
    (h : ∀ u ∈ ts, txn_key_matches t u = true → u = t) :
    ts.map (fun u => if txn_key_matches t u then t else u) = ts := by
  conv_rhs => rw [← List.map_id ts]
  apply List.map_congr_left
  intro u hu
  by_cases hk : txn_key_matches t u = true
  · rw [if_pos hk, h u hu hk]; rfl
  · rw [if_neg hk]; rfl

/-- Upserting the same document twice equals upserting it once. -/
theorem upsert_transaction_idem (ts : List Transaction) (t : Transaction) :
    upsert_transaction (upsert_transaction ts t) t = upsert_transaction ts t := by
  have hany : (upsert_transaction ts t).any (txn_key_matches t) = true :=
    List.any_eq_true.mpr ⟨t, upsert_transaction_mem_self ts t, txn_key_self t⟩
  rw [upsert_transaction_of_any _ _ hany]
  exact map_replace_id _ _ (upsert_transaction_matches ts t)

/-- Replacing the key-matches by `t` keeps the key-match count. -/
theorem filter_map_replace_txn (t : Transaction) (ts : List Transaction) :
    (ts.map (fun u => if txn_key_matches t u then t else u)).filter (txn_key_matches t) =
      (ts.filter (txn_key_matches t)).map (fun _ => t) := by
  induction ts with
  | nil => rfl
  | cons c cs ih =>
    by_cases hk : txn_key_matches t c = true
    · simp [List.filter_cons, hk, txn_key_self, ih]
    · simp [List.filter_cons, hk, ih]

/-- If at most one stored entry carries the key, then after the upsert exactly
one entry carries it. -/
theorem filter_upsert_length (ts : List Transaction) (t : Transaction)
    (hdup : (ts.filter (txn_key_matches t)).length ≤ 1) :
    ((upsert_transaction ts t).filter (txn_key_matches t)).length = 1 := by
  by_cases h : ts.any (txn_key_matches t) = true
  · rw [upsert_transaction_of_any _ _ h, filter_map_replace_txn, List.length_map]
    rcases List.any_eq_true.mp h with ⟨v, hv, hkv⟩
    have hpos : 0 < (ts.filter (txn_key_matches t)).length :=
      List.length_pos_of_mem (List.mem_filter.mpr ⟨hv, hkv⟩)
    omega
  · rw [upsert_transaction_of_not_any _ _ h]
    have hnil : ts.filter (txn_key_matches t) = [] := by
      rw [List.filter_eq_nil_iff]
      exact fun u hu hk => h (List.any_eq_true.mpr ⟨u, hu, hk⟩)
    simp [List.filter_append, hnil, txn_key_self]

/-- Claim C5: the journal `Append` (`create_transaction` backed by
`upsert_item`) is idempotent — calling it twice with the same document and
the same account path leaves the store exactly as after the first call, and
the journal holds exactly one entry for that identifier within the account
partition (assuming the store held at most one beforehand, as Cosmos keys
guarantee). -/
theorem c5_append_idempotent (s : Store) (aid : String) (t : Transaction)
    (hdup : (s.transactions.filter (txn_key_matches { t with accountId := aid })).length ≤ 1) :
    create_transaction (create_transaction s aid t).1 aid t =
      ((create_transaction s aid t).1, { t with accountId := aid }) ∧
    ((create_transaction s aid t).1.transactions.filter
      (txn_key_matches { t with accountId := aid })).length = 1 := by
  constructor
  · have hidem := upsert_transaction_idem s.transactions ({ t with accountId := aid })
    simp only [create_transaction]
    rw [hidem]
  · have hlen := filter_upsert_length s.transactions ({ t with accountId := aid }) hdup
    simpa only [create_transaction] using hlen

/-- Witness for C5: re-appending the pre-existing entry `11` of account
`1010` changes nothing and leaves one entry with that identifier. -/
theorem c5_append_idempotent_witness :
    (exStore.transactions.filter
      (txn_key_matches { exOldTxn with accountId := "1010" })).length ≤ 1 ∧
    (create_transaction (create_transaction exStore "1010" exOldTxn).1 "1010" exOldTxn =
      ((create_transaction exStore "1010" exOldTxn).1,
        { exOldTxn with accountId := "1010" }) ∧
    ((create_transaction exStore "1010" exOldTxn).1.transactions.filter
      (txn_key_matches { exOldTxn with accountId := "1010" })).length = 1) :=
  ⟨by decide, c5_append_idempotent exStore "1010" exOldTxn (by decide)⟩

/-! ### C6 — journal identifiers under the timestamp-derived id scheme -/

/-- Counterexample to claim C6: two distinct settlements on account `1010`
that the clock stamps with the same timestamp both succeed, yet their journal
entries carry the same identifier `txn-1700000000`, and the second append
overwrites the first: the journal ends with two entries (the pre-existing one
plus a single settlement entry) instead of three. -/
theorem c6_counterexample :
    c6ReqA ≠ c6ReqB ∧
    is_success (process_payment exStore c6ReqA 1700000000 true).1 = true ∧
    is_success (process_payment (process_payment exStore c6ReqA 1700000000 true).2
      c6ReqB 1700000000 true).1 = true ∧
    (settlement_transaction c6ReqA exPaymentMethod exBeneficiary 1700000000).id =
      (settlement_transaction c6ReqB exPaymentMethod exBeneficiary 1700000000).id ∧
    (process_payment (process_payment exStore c6ReqA 1700000000 true).2
      c6ReqB 1700000000 true).2.transactions =
      [exOldTxn, settlement_transaction c6ReqB exPaymentMethod exBeneficiary 1700000000] := by
  refine ⟨by decide, rfl, ?_, rfl, ?_⟩ <;> rfl

/-- Claim C6 as amended: a settlement's journal-entry identifier is `txn-`
followed by the settlement timestamp and nothing else — it does not depend on
the request, the instrument, the beneficiary or the store — so the entries of
any two settlements carried out at the same timestamp share one identifier
(and the later append overwrites the earlier entry, as the counterexample
shows); distinct identifiers are guaranteed only for distinct timestamps. -/
theorem c6_id_depends_only_on_timestamp (req₁ req₂ : PaymentRequest)
    (pm₁ pm₂ : PaymentMethod) (ben₁ ben₂ : Beneficiary) (now : Nat) :
    (settlement_transaction req₁ pm₁ ben₁ now).id = mk_txn_id now ∧
    (settlement_transaction req₁ pm₁ ben₁ now).id =
      (settlement_transaction req₂ pm₂ ben₂ now).id :=
  ⟨rfl, rfl⟩

/-! ### C3 — the balance update under concurrency -/

/-- One successful settlement leaves the next settlement's lookups intact and
decreases the stored balance by the request amount. -/
theorem process_payment_success_next (s : Store) (req : PaymentRequest) (now : Nat)
    (a : Account) (pm : PaymentMethod) (ben : Beneficiary)
    (ha : get_account_by_id s req.accountId = some a)
    (hpm : get_payment_method_by_id s req.paymentMethodId req.accountId = some pm)
    (hben : get_beneficiary_by_id s req.beneficiaryId req.accountId = some ben)
    (hbal : ¬ a.balance < req.amount) :
    is_success (process_payment s req now true).1 = true ∧
    get_account_by_id (process_payment s req now true).2 req.accountId =
      some { a with balance := a.balance - req.amount } ∧
    get_payment_method_by_id (process_payment s req now true).2
      req.paymentMethodId req.accountId = some pm ∧
    get_beneficiary_by_id (process_payment s req now true).2
      req.beneficiaryId req.accountId = some ben := by
  have heq := process_payment_success s req now a pm ben ha hpm hben hbal
  rw [heq]
  refine ⟨rfl, ?_, hpm, hben⟩
  show ((upsert_account s.accounts _).filter _).head? = _
  exact get_account_after_upsert _ ha rfl

/-- Counterexample to claim C3: `update_account_balance` carries no version
condition and no retry, so an interleaving of two settlements of amount `5`
against a balance of `10` — both reading (and passing the funds check) before
either writes — commits both writes without any conflict being detected, and
the final balance is `5`, not `0`: the lost update contradicts both the
optimistic-concurrency wording and the `N` concurrent settlements property at
`N = 2`. -/
theorem c3_counterexample :
    settle_read_phase c3Store c3Req = some 5 ∧
    update_account_balance c3Store c3Req.accountId 5 = .ok c3S1 ∧
    update_account_balance c3S1 c3Req.accountId 5 = .ok c3S1 ∧
    get_account_by_id c3S1 c3Req.accountId = some { exAccount with balance := 5 } ∧
    ({ exAccount with balance := 5 } : Account).balance ≠ 0 := by
  refine ⟨rfl, rfl, rfl, rfl, by decide⟩

/-- Claim C3 as amended: the balance update is an unconditional
read-then-upsert (no version check, no bounded retry); executed sequentially,
`n` settlements of a common amount against a balance of `n * amount` all
succeed and leave the balance at exactly `0` — the concurrent form of the
property fails, as the counterexample's interleaving shows. -/
theorem c3_sequential_settlements_drain (n : Nat) : ∀ (s : Store) (req : PaymentRequest)
    (now : Nat) (a : Account) (pm : PaymentMethod) (ben : Beneficiary),
    get_account_by_id s req.accountId = some a →
    get_payment_method_by_id s req.paymentMethodId req.accountId = some pm →
    get_beneficiary_by_id s req.beneficiaryId req.accountId = some ben →
    0 ≤ req.amount →
    a.balance = n * req.amount →
    (settle_seq_ok req now n s).1 = true ∧
    ∃ a2, get_account_by_id (settle_seq_ok req now n s).2 req.accountId = some a2 ∧
      a2.balance = 0 := by
  induction n with
  | zero =>
    intro s req now a pm ben ha hpm hben hpos hbal
    exact ⟨rfl, a, ha, by simpa using hbal⟩
  | succ n ih =>
    intro s req now a pm ben ha hpm hben hpos hbal
    have hnn : (0 : Int) ≤ (n : Int) * req.amount :=
      mul_nonneg (by positivity) hpos
    have hge : ¬ a.balance < req.amount := by
      rw [not_lt, hbal]
      push_cast
      nlinarith [hnn]
    obtain ⟨hok, ha', hpm', hben'⟩ :=
      process_payment_success_next s req now a pm ben ha hpm hben hge
    have hbal' : ({ a with balance := a.balance - req.amount } : Account).balance =
        n * req.amount := by
      show a.balance - req.amount = _
      rw [hbal]
      push_cast
      ring
    obtain ⟨hok2, a2, ha2, hbal2⟩ :=
      ih (process_payment s req now true).2 req now _ pm ben ha' hpm' hben' hpos hbal'
    refine ⟨?_, a2, ha2, hbal2⟩
    show (is_success (process_payment s req now true).1 &&
      (settle_seq_ok req now n (process_payment s req now true).2).1) = true
    rw [hok, hok2]
    rfl

/-- Witness for the amended C3: two sequential settlements of `5` against the
balance `10 = 2 * 5` both succeed and leave the balance at `0`. -/
theorem c3_sequential_settlements_drain_witness :
    (get_account_by_id c3Store c3Req.accountId = some ({ exAccount with balance := 10 }) ∧
     get_payment_method_by_id c3Store c3Req.paymentMethodId c3Req.accountId =
       some exPaymentMethod ∧
     get_beneficiary_by_id c3Store c3Req.beneficiaryId c3Req.accountId = some exBeneficiary ∧
     (0 : Int) ≤ c3Req.amount ∧
     ({ exAccount with balance := 10 } : Account).balance = (2 : Nat) * c3Req.amount) ∧
    ((settle_seq_ok c3Req 1700000000 2 c3Store).1 = true ∧
     ∃ a2, get_account_by_id (settle_seq_ok c3Req 1700000000 2 c3Store).2 c3Req.accountId =
       some a2 ∧ a2.balance = 0) :=
  ⟨⟨by decide, by decide, by decide, by decide, by decide⟩,
    c3_sequential_settlements_drain 2 c3Store c3Req 1700000000
      ({ exAccount with balance := 10 }) exPaymentMethod exBeneficiary
      (by decide) (by decide) (by decide) (by decide) (by decide)⟩

/-! ### C10 — the balance update frame -/

/-- Claim C10: on a store whose account ids are unique (as the Cosmos primary
key guarantees), `update_account_balance` succeeds whenever the account
resolves, and rewrites the account list pointwise — the target account keeps
every field it had when read except `balance`, which becomes `new_balance`;
every other account document is untouched, and the result store differs from
the input only in the `accounts` container. -/
theorem c10_update_balance_frame (s : Store) (aid : String) (nb : Int) (a : Account)
    (ha : get_account_by_id s aid = some a)
    (hnodup : (s.accounts.map Account.id).Nodup) :
    update_account_balance s aid nb =
      .ok { s with accounts := s.accounts.map (fun b => if b.id == aid then { b with balance := nb } else b) } := by
  obtain ⟨hmem, haid⟩ := get_account_by_id_spec ha
  have hany : s.accounts.any (fun b => b.id == ({ a with balance := nb } : Account).id) = true :=
    List.any_eq_true.mpr ⟨a, hmem, by simp⟩
  have hmap : upsert_account s.accounts ({ a with balance := nb }) =
      s.accounts.map (fun b => if b.id == aid then { b with balance := nb } else b) := by
    unfold upsert_account
    rw [if_pos hany]
    apply List.map_congr_left
    intro b hb
    by_cases hbid : b.id = a.id
    · have hb_eq : b = a := List.inj_on_of_nodup_map hnodup hb hmem hbid
      subst hb_eq
      simp [haid]
    · have hne2 : ¬ b.id = aid := fun hEq => hbid (by rw [haid]; exact hEq)
      simp [hbid, hne2]
  have hstep : update_account_balance s aid nb = .ok { s with accounts := upsert_account s.accounts ({ a with balance := nb }) } := by
    unfold update_account_balance
    rw [ha]
  rw [hstep, hmap]

/-- Witness for C10 at the worked example: setting the balance of `1010` to
`42` rewrites only that account's balance field. -/
theorem c10_update_balance_frame_witness :
    (get_account_by_id exStore "1010" = some exAccount ∧
     (exStore.accounts.map Account.id).Nodup) ∧
    update_account_balance exStore "1010" 42 =
      .ok { exStore with accounts := exStore.accounts.map (fun b => if b.id == "1010" then { b with balance := 42 } else b) } :=
  ⟨⟨by decide, by decide⟩,
    c10_update_balance_frame exStore "1010" 42 exAccount (by decide) (by decide)⟩

/-! ### C7 — the LastN journal query -/

/-- Claim C7: `LastN` (`get_transactions_by_account_id`) returns at most `n`
transactions — exactly `min n` (count of the account's entries) — all
belonging to the account, in strictly descending timestamp order (the
account's timestamps being pairwise distinct), and they are the most recent
ones: every account entry left out is strictly older than every entry
returned; the HTTP endpoint defaults `n` to 10, so on an account with 15
entries it returns exactly the 10 most recent. -/
theorem c7_lastN_spec (s : Store) (aid : String) (n : Nat)
    (hdist : (s.transactions.filter (fun t => t.accountId == aid)).Pairwise
      (fun t u => t.timestamp ≠ u.timestamp)) :
    (get_transactions_by_account_id s aid n).length =
      min n (s.transactions.filter (fun t => t.accountId == aid)).length ∧
    (∀ t ∈ get_transactions_by_account_id s aid n, t.accountId = aid ∧ t ∈ s.transactions) ∧
    (get_transactions_by_account_id s aid n).Pairwise
      (fun t u => u.timestamp < t.timestamp) ∧
    (∀ t ∈ s.transactions.filter (fun t => t.accountId == aid),
      t ∉ get_transactions_by_account_id s aid n →
      ∀ u ∈ get_transactions_by_account_id s aid n, t.timestamp < u.timestamp) ∧
    get_last_transactions s aid none = get_transactions_by_account_id s aid 10 := by
  have hperm : (query_transactions_desc s.transactions aid).Perm
      (s.transactions.filter (fun t => t.accountId == aid)) :=
    List.perm_insertionSort _ _
  have hsorted : (query_transactions_desc s.transactions aid).Pairwise ts_desc :=
    List.sorted_insertionSort ts_desc _
  have hne : (query_transactions_desc s.transactions aid).Pairwise
      (fun t u => t.timestamp ≠ u.timestamp) :=
    (hperm.pairwise_iff (fun h => h.symm)).mpr hdist
  refine ⟨?_, ?_, ?_, ?_, rfl⟩
  · show ((query_transactions_desc s.transactions aid).take n).length = _
    rw [List.length_take, hperm.length_eq]
  · intro t ht
    have htL : t ∈ query_transactions_desc s.transactions aid :=
      List.Sublist.mem ht (List.take_sublist n _)
    rcases List.mem_filter.mp (hperm.mem_iff.mp htL) with ⟨hmem, hp⟩
    exact ⟨by simpa using hp, hmem⟩
  · have hlt : (query_transactions_desc s.transactions aid).Pairwise
        (fun t u => u.timestamp < t.timestamp) :=
      (hsorted.and hne).imp (fun hp => lt_of_le_of_ne hp.1 (Ne.symm hp.2))
    exact List.Pairwise.sublist (List.take_sublist n _) hlt
  · intro t htF htnot u hu
    have htL : t ∈ query_transactions_desc s.transactions aid := hperm.mem_iff.mpr htF
    have hsplit := List.take_append_drop n (query_transactions_desc s.transactions aid)
    have htd : t ∈ (query_transactions_desc s.transactions aid).drop n := by
      rw [← hsplit] at htL
      rcases List.mem_append.mp htL with h1 | h2
      · exact absurd h1 htnot
      · exact h2
    have hS := hsorted
    rw [← hsplit] at hS
    have hdom : ts_desc u t := (List.pairwise_append.mp hS).2.2 u hu t htd
    have huF : u ∈ s.transactions.filter (fun t => t.accountId == aid) :=
      hperm.mem_iff.mp (List.Sublist.mem hu (List.take_sublist n _))
    have htu : t ≠ u := fun h => htnot (h ▸ hu)
    have hne2 : t.timestamp ≠ u.timestamp :=
      List.Pairwise.forall (fun _ _ h => h.symm) hdist htF huF htu
    exact lt_of_le_of_ne hdom hne2

/-- Witness for C7: on the 15-entry journal of account `1010`, `LastN` with
`n = 10` returns exactly the 10 most recent entries, strictly descending. -/
theorem c7_lastN_spec_witness :
    ((wStore.transactions.filter (fun t => t.accountId == "1010")).Pairwise
      (fun t u => t.timestamp ≠ u.timestamp)) ∧
    ((get_transactions_by_account_id wStore "1010" 10).length =
      min 10 (wStore.transactions.filter (fun t => t.accountId == "1010")).length ∧
    (∀ t ∈ get_transactions_by_account_id wStore "1010" 10,
      t.accountId = "1010" ∧ t ∈ wStore.transactions) ∧
    (get_transactions_by_account_id wStore "1010" 10).Pairwise
      (fun t u => u.timestamp < t.timestamp) ∧
    (∀ t ∈ wStore.transactions.filter (fun t => t.accountId == "1010"),
      t ∉ get_transactions_by_account_id wStore "1010" 10 →
      ∀ u ∈ get_transactions_by_account_id wStore "1010" 10, t.timestamp < u.timestamp) ∧
    get_last_transactions wStore "1010" none = get_transactions_by_account_id wStore "1010" 10) :=
  ⟨by decide, c7_lastN_spec wStore "1010" 10 (by decide)⟩

/-! ### C8 — the recipient search -/

/-- Claim C8: `SearchByRecipient` returns exactly the account's transactions
whose recipient name contains the search term as a case-insensitive substring
(as a permutation of, and with membership equivalent to, the filtered
journal), ordered by timestamp descending; in particular the term `acme`
matches the recipient name `ACME Corp`. -/
theorem c8_search_by_recipient_spec (s : Store) (aid term : String) :
    (search_transactions_by_recipient s aid term).Perm
      (s.transactions.filter
        (fun t => t.accountId == aid && recipient_matches t.recipientName term)) ∧
    (∀ t, t ∈ search_transactions_by_recipient s aid term ↔
      (t ∈ s.transactions ∧ t.accountId = aid ∧
        recipient_matches t.recipientName term = true)) ∧
    (search_transactions_by_recipient s aid term).Pairwise
      (fun t u => u.timestamp ≤ t.timestamp) ∧
    recipient_matches "ACME Corp" "acme" = true := by
  refine ⟨List.perm_insertionSort _ _, ?_, ?_, by decide⟩
  · intro t
    constructor
    · intro ht
      rcases List.mem_filter.mp ((List.mem_insertionSort ts_desc).mp ht) with ⟨hmem, hp⟩
      rw [Bool.and_eq_true] at hp
      exact ⟨hmem, by simpa using hp.1, hp.2⟩
    · rintro ⟨hmem, haid2, hmatch⟩
      apply (List.mem_insertionSort ts_desc).mpr
      apply List.mem_filter.mpr
      refine ⟨hmem, ?_⟩
      rw [Bool.and_eq_true]
      exact ⟨by simpa using haid2, hmatch⟩
  · exact List.sorted_insertionSort ts_desc _

/-! ### C9 — validation before store calls -/

/-- Counterexample to claim C9: the functions-API journal query endpoint does
not validate the accountId at all — called with the non-numeric accountId
`abc` it contacts the store (one store call) and answers 200 with the query
result instead of rejecting the request. -/
theorem c9_counterexample :
    py_isdigit "abc" = false ∧
    (functions_get_last_transactions exStore "abc" 10).2 = 1 ∧
    is_success (functions_get_last_transactions exStore "abc" 10).1 = true := by
  exact ⟨by decide, rfl, rfl⟩

/-- Claim C9 as amended: the container-apps transaction service rejects an
empty or non-numeric accountId (both for the last-N query and for the search)
and an empty search term before any store call, and the functions-API search
endpoint rejects an empty search term before any store call; only the
functions-API variant forwards unvalidated accountIds to the store (see the
counterexample). -/
theorem c9_aca_validation_before_store (s : Store) (aid term : String)
    (hbad : py_isdigit aid = false) :
    ((aca_get_last_transactions s aid).2 = 0 ∧
     is_success (aca_get_last_transactions s aid).1 = false) ∧
    ((aca_get_transactions_by_recipient_name s aid term).2 = 0 ∧
     is_success (aca_get_transactions_by_recipient_name s aid term).1 = false) ∧
    (∀ s2 : Store, ∀ aid2 term2 : String, term2 = "" →
      (functions_search_by_recipient s2 aid2 term2).2 = 0 ∧
      is_success (functions_search_by_recipient s2 aid2 term2).1 = false) ∧
    (∀ s2 : Store, ∀ aid2 : String,
      (aca_get_transactions_by_recipient_name s2 aid2 "").2 = 0 ∧
      is_success (aca_get_transactions_by_recipient_name s2 aid2 "").1 = false) := by
  refine ⟨?_, ?_, ?_, ?_⟩
  · by_cases he : aid = ""
    · subst he; exact ⟨rfl, rfl⟩
    · have hb : (aid == "") = false := beq_eq_false_iff_ne.mpr he
      simp [aca_get_last_transactions, hb, hbad, is_success]
  · by_cases he : aid = ""
    · subst he; exact ⟨rfl, rfl⟩
    · have hb : (aid == "") = false := beq_eq_false_iff_ne.mpr he
      simp [aca_get_transactions_by_recipient_name, hb, hbad, is_success]
  · intro s2 aid2 term2 ht
    subst ht
    exact ⟨rfl, rfl⟩
  · intro s2 aid2
    by_cases he : aid2 = ""
    · subst he; exact ⟨rfl, rfl⟩
    · have hb : (aid2 == "") = false := beq_eq_false_iff_ne.mpr he
      cases hd : py_isdigit aid2
      · simp [aca_get_transactions_by_recipient_name, hb, hd, is_success]
      · simp [aca_get_transactions_by_recipient_name, hb, hd, is_success]

/-- Witness for the amended C9 at the non-numeric accountId `12a` and the
search term `acme`. -/
theorem c9_aca_validation_before_store_witness :
    py_isdigit "12a" = false ∧
    (((aca_get_last_transactions exStore "12a").2 = 0 ∧
      is_success (aca_get_last_transactions exStore "12a").1 = false) ∧
    ((aca_get_transactions_by_recipient_name exStore "12a" "acme").2 = 0 ∧
     is_success (aca_get_transactions_by_recipient_name exStore "12a" "acme").1 = false) ∧
    (∀ s2 : Store, ∀ aid2 term2 : String, term2 = "" →
      (functions_search_by_recipient s2 aid2 term2).2 = 0 ∧
      is_success (functions_search_by_recipient s2 aid2 term2).1 = false) ∧
    (∀ s2 : Store, ∀ aid2 : String,
      (aca_get_transactions_by_recipient_name s2 aid2 "").2 = 0 ∧
      is_success (aca_get_transactions_by_recipient_name s2 aid2 "").1 = false)) :=
  ⟨by decide, c9_aca_validation_before_store exStore "12a" "acme" (by decide)⟩
